import Mathlib

/-!
Shallow embedding of `drivers/net/ethernet/mellanox/mlx5/core/en/rep/tc.c`
(switch-port representor TC offload glue): flow-rule dispatch with
flow-table chain remap, encapsulation-entry / neighbor binding,
the indirect-block registry, and the receive-path metadata restorer.

External collaborators (the hardware installer, the mapping service,
the chains/priorities manager, the action registry, connection-tracking
restore, ipsec rx classification) are modelled as explicit environment
records of oracles; the code of `tc.c` itself is translated function by
function.  Machine integers are modelled as `Nat` (all values involved
are masks/ids where overflow does not occur on the modelled paths);
error returns are `Int` (negated errno, as in the C source).
-/

namespace RepTc

/-- errno values used by the source (returns are negated, as in C). -/
def EOPNOTSUPP : Int := 95

def EEXIST : Int := 17

def ENOENT : Int := 2

def ENOMEM : Int := 12

/-! ## Encapsulation manager: `mlx5e_rep_update_flows` (C6) -/

/-- The fields of `struct mlx5e_encap_entry` that `mlx5e_rep_update_flows`
reads or writes: the `MLX5_ENCAP_ENTRY_VALID` flag, the cached destination
MAC `h_dest`, the ethernet header inside `encap_header` (destination and
source MAC), and `route_dev_ifindex`.  MAC addresses are modelled as `Nat`. -/
structure EncapEntry where
  valid : Bool
  h_dest : Nat
  hdr_dest : Nat
  hdr_source : Nat
  route_dev_ifindex : Nat
  deriving DecidableEq, Repr

/-- Environment for `mlx5e_rep_update_flows`: `__dev_get_by_index` resolving
a route device's interface index to its MAC (`dev_addr`), `none` on miss. -/
structure UpdateFlowsEnv where
  dev_addr_by_index : Nat → Option Nat

/-- `mlx5e_rep_update_flows` (tc.c:90-130).  Returns the updated entry and
two event flags: whether `mlx5e_tc_encap_flows_del` was invoked (hardware
teardown) and whether `mlx5e_tc_encap_flows_add` was invoked (reinstall).
The early `goto unlock` branch when the validity flag equals
`neigh_connected` and `h_dest` equals `ha` performs neither. -/
def mlx5e_rep_update_flows (env : UpdateFlowsEnv) (e : EncapEntry)
    (neigh_connected : Bool) (ha : Nat) : EncapEntry × Bool × Bool :=
  if e.valid = neigh_connected ∧ e.h_dest = ha then
    (e, false, false)
  else
    let del := e.valid ∧ (¬neigh_connected ∨ e.h_dest ≠ ha)
    if neigh_connected ∧ ¬e.valid then
      let e1 : EncapEntry := { e with h_dest := ha, hdr_dest := ha }
      let e2 : EncapEntry :=
        match env.dev_addr_by_index e.route_dev_ifindex with
        | some mac => { e1 with hdr_source := mac }
        | none => e1
      (e2, decide del, true)
    else
      (e, decide del, false)

/-! ## Encapsulation manager: `mlx5e_rep_encap_entry_attach` (C2) -/

/-- State touched by attach: the per-reformat-type entropy refcount
(`mlx5_tun_entropy`), the set of existing neighbor hash entries (by
neighbor key, modelled as `Nat`), and each neighbor entry's encap list
(encap entries modelled by an id). -/
structure NeighState where
  entropy : Nat → Nat
  nhes : List Nat
  encapList : Nat → List Nat

/-- Environment for attach: whether `mlx5_tun_entropy_refcount_inc` fails
for a given reformat type, and whether `mlx5e_rep_neigh_entry_create`
fails (both external collaborators). -/
structure AttachEnv where
  entropy_inc_err : Nat → Option Int
  neigh_create_err : Option Int

/-- `mlx5e_rep_encap_entry_attach` (tc.c:34-69).  Arguments: the encap
entry's id `eid`, its reformat type `rt`, and the neighbor key.  Returns
the error code, the new state, and the encap entry's `nhe` back-reference
(`none` when not attached).  On neighbor-entry creation failure the
entropy refcount increment is rolled back (`mlx5_tun_entropy_refcount_dec`)
before the error is returned. -/
def mlx5e_rep_encap_entry_attach (env : AttachEnv) (st : NeighState)
    (eid : Nat) (rt : Nat) (key : Nat) : Int × NeighState × Option Nat :=
  match env.entropy_inc_err rt with
  | some err => (err, st, none)
  | none =>
    let st1 : NeighState :=
      { st with entropy := fun r => if r = rt then st.entropy r + 1 else st.entropy r }
    if key ∈ st1.nhes then
      (0, { st1 with
              encapList := fun k =>
                if k = key then eid :: st1.encapList k else st1.encapList k },
       some key)
    else
      match env.neigh_create_err with
      | some err =>
        (err, { st1 with
                  entropy := fun r =>
                    if r = rt then st1.entropy r - 1 else st1.entropy r },
         none)
      | none =>
        let st2 : NeighState := { st1 with nhes := key :: st1.nhes }
        (0, { st2 with
                encapList := fun k =>
                  if k = key then eid :: st2.encapList k else st2.encapList k },
         some key)

/-! ## Flow rule dispatcher and flow-table chain remap (C1) -/

/-- `enum flow_cls_command` values reaching this driver, plus a default
case for any other command. -/
inductive FlowClsCommand
  | replace
  | destroy
  | stats
  | other
  deriving DecidableEq, Repr

/-- `struct flow_cls_common_offload`: the chain index and priority. -/
structure FlowCommon where
  chain_index : Nat
  prio : Nat
  deriving DecidableEq, Repr

/-- `struct flow_stats` embedded in `struct flow_cls_offload`; copied back
wholesale by `memcpy(&f->stats, &tmp.stats, sizeof(f->stats))`. -/
structure FlowStats where
  pkts : Nat
  bytes : Nat
  drops : Nat
  lastused : Nat
  deriving DecidableEq, Repr

/-- The part of `struct flow_cls_offload` this file reads or writes. -/
structure FlowClsOffload where
  command : FlowClsCommand
  common : FlowCommon
  stats : FlowStats
  deriving DecidableEq, Repr

/-- `enum tc_setup_type` values the ft callbacks distinguish. -/
inductive TcSetupType
  | clsflower
  | clsmatchall
  | other
  deriving DecidableEq, Repr

/-- `MLX5_TC_FLAG` bits. -/
def MLX5_TC_FLAG_INGRESS : Nat := 1

def MLX5_TC_FLAG_EGRESS : Nat := 2

def MLX5_TC_FLAG_ESW_OFFLOAD : Nat := 4

def MLX5_TC_FLAG_FT_OFFLOAD : Nat := 8

/-- Flags used by `mlx5e_rep_setup_ft_cb`: INGRESS|ESW_OFFLOAD|FT_OFFLOAD. -/
def ft_cb_flags : Nat :=
  MLX5_TC_FLAG_INGRESS + MLX5_TC_FLAG_ESW_OFFLOAD + MLX5_TC_FLAG_FT_OFFLOAD

/-- Flags used by `mlx5e_rep_indr_setup_ft_cb`: EGRESS|ESW_OFFLOAD|FT_OFFLOAD. -/
def indr_ft_cb_flags : Nat :=
  MLX5_TC_FLAG_EGRESS + MLX5_TC_FLAG_ESW_OFFLOAD + MLX5_TC_FLAG_FT_OFFLOAD

/-- Environment for the dispatch layer: the chains/priorities manager
(`mlx5_chains_prios_supported`, `mlx5_chains_get_prio_range`,
`mlx5_chains_get_nf_ft_chain`), `netif_device_present` on the representor,
and the three hardware-installer entry points.  Each installer call
returns the error code and the value of the descriptor's `stats` field
after the call (the descriptor is passed by pointer in C). -/
structure FtEnv where
  prios_supported : Bool
  prio_range : Nat
  nf_ft_chain : Nat
  netif_present : Bool
  configure_flower : FlowClsOffload → Nat → Int × FlowStats
  delete_flower : FlowClsOffload → Nat → Int × FlowStats
  stats_flower : FlowClsOffload → Nat → Int × FlowStats

/-- `mlx5e_rep_setup_tc_cls_flower` (tc.c:132-149): the primary dispatch
of a classifier command to the hardware installer. -/
def mlx5e_rep_setup_tc_cls_flower (env : FtEnv) (f : FlowClsOffload)
    (flags : Nat) : Int × FlowStats :=
  match f.command with
  | .replace => env.configure_flower f flags
  | .destroy => env.delete_flower f flags
  | .stats => env.stats_flower f flags
  | .other => (-EOPNOTSUPP, f.stats)

/-- `mlx5e_rep_setup_ft_cb` (tc.c:187-230), the direct flow-table remap
path.  Returns the error code, the caller-visible descriptor after the
`memcpy` of stats back, and the trace of descriptors (with flags) that
were replayed through `mlx5e_rep_setup_tc_cls_flower`. -/
def mlx5e_rep_setup_ft_cb (env : FtEnv) (ty : TcSetupType)
    (f : FlowClsOffload) : Int × FlowClsOffload × List (FlowClsOffload × Nat) :=
  match ty with
  | .clsflower =>
    if ¬ env.prios_supported then (-EOPNOTSUPP, f, [])
    else if env.prio_range ≤ f.common.prio then (-EOPNOTSUPP, f, [])
    else if f.common.chain_index ≠ 0 then (-EOPNOTSUPP, f, [])
    else
      let tmp : FlowClsOffload :=
        { f with common := { chain_index := env.nf_ft_chain, prio := f.common.prio + 1 } }
      let r := mlx5e_rep_setup_tc_cls_flower env tmp ft_cb_flags
      (r.1, { f with stats := r.2 }, [(tmp, ft_cb_flags)])
  | _ => (-EOPNOTSUPP, f, [])

/-- `mlx5e_rep_indr_offload` (tc.c:319-346): indirect-path dispatch,
guarded by `netif_device_present` on the representor. -/
def mlx5e_rep_indr_offload (env : FtEnv) (f : FlowClsOffload)
    (flags : Nat) : Int × FlowStats :=
  if ¬ env.netif_present then (-EOPNOTSUPP, f.stats)
  else
    match f.command with
    | .replace => env.configure_flower f flags
    | .destroy => env.delete_flower f flags
    | .stats => env.stats_flower f flags
    | .other => (-EOPNOTSUPP, f.stats)

/-- `mlx5e_rep_indr_setup_ft_cb` (tc.c:367-411), the indirect flow-table
remap path.  Same result shape as `mlx5e_rep_setup_ft_cb`; the trace
records the descriptors replayed through `mlx5e_rep_indr_offload`. -/
def mlx5e_rep_indr_setup_ft_cb (env : FtEnv) (ty : TcSetupType)
    (f : FlowClsOffload) : Int × FlowClsOffload × List (FlowClsOffload × Nat) :=
  match ty with
  | .clsflower =>
    if ¬ env.prios_supported ∨ env.prio_range ≤ f.common.prio ∨
        f.common.chain_index ≠ 0 then
      (-EOPNOTSUPP, f, [])
    else
      let tmp : FlowClsOffload :=
        { f with common := { chain_index := env.nf_ft_chain, prio := f.common.prio + 1 } }
      let r := mlx5e_rep_indr_offload env tmp indr_ft_cb_flags
      (r.1, { f with stats := r.2 }, [(tmp, indr_ft_cb_flags)])
  | _ => (-EOPNOTSUPP, f, [])

/-! ## Indirect block registry: `mlx5e_rep_indr_setup_block` (C3, C8) -/

/-- `enum flow_block_binder_type` values distinguished by the source,
with `.other` standing for every remaining binder type. -/
inductive BinderType
  | clsactIngress
  | clsactEgress
  | other
  deriving DecidableEq, Repr

/-- `enum flow_block_command`, with `.other` for the default case. -/
inductive BlockCommand
  | bind
  | unbind
  | other
  deriving DecidableEq, Repr

/-- The properties of a foreign net device the bind path inspects:
`mlx5e_tc_tun_device_to_offload`, `is_vlan_dev` plus whether
`vlan_dev_real_dev` is this representor, `netif_is_ovs_master`,
`netif_is_macvlan` plus whether `macvlan_dev_real_dev` is this
representor, and the macvlan mode (`MACVLAN_MODE_PASSTHRU`). -/
structure NetDev where
  id : Nat
  tun_offloadable : Bool
  is_vlan : Bool
  vlan_real_is_rep : Bool
  is_ovs_master : Bool
  is_macvlan : Bool
  macvlan_real_is_rep : Bool
  macvlan_passthru : Bool
  deriving DecidableEq, Repr

/-- External collaborators of the bind path:
`mlx5e_tc_int_port_supported`, `kmalloc` success, and
`flow_indr_block_cb_alloc` failure (`some` error on failure). -/
structure BlockEnv where
  int_port_supported : Bool
  kmalloc_ok : Bool
  cb_alloc_err : Option Int

/-- Registry state: the `tc_indr_block_priv_list` of
`(device, binder-type)` bindings, and the set of registered block
callbacks (`flow_block_cb_add` / `driver_list`), keyed the same way. -/
structure BlockState where
  bindings : List (Nat × BinderType)
  cbs : List (Nat × BinderType)
  deriving DecidableEq, Repr

/-- `mlx5e_rep_macvlan_mode_supported` (tc.c:423-428). -/
def mlx5e_rep_macvlan_mode_supported (dev : NetDev) : Bool :=
  dev.macvlan_passthru

/-- `mlx5e_rep_indr_block_priv_lookup` (tc.c:302-317): whether a binding
for the `(device, binder-type)` pair is recorded. -/
def mlx5e_rep_indr_block_priv_lookup (st : BlockState) (devId : Nat)
    (bt : BinderType) : Prop :=
  (devId, bt) ∈ st.bindings

instance (st : BlockState) (devId : Nat) (bt : BinderType) :
    Decidable (mlx5e_rep_indr_block_priv_lookup st devId bt) := by
  unfold mlx5e_rep_indr_block_priv_lookup
  infer_instance

/-- The `switch (f->command)` tail of `mlx5e_rep_indr_setup_block`
(tc.c:468-511), reached once all eligibility guards have passed.
Bind: duplicate lookup (`-EEXIST`), allocation, registration with the
block-callback plumbing (rolled back on `flow_indr_block_cb_alloc`
failure), and recording in the list.  Unbind: lookup (`-ENOENT`),
block-callback lookup (`-ENOENT`), removal and release. -/
def mlx5e_rep_indr_setup_block_cmd (env : BlockEnv) (st : BlockState)
    (dev : NetDev) : BlockCommand → BinderType → Int × BlockState
  | .bind, bt =>
    if mlx5e_rep_indr_block_priv_lookup st dev.id bt then (-EEXIST, st)
    else if ¬ env.kmalloc_ok then (-ENOMEM, st)
    else
      let st1 : BlockState := { st with bindings := (dev.id, bt) :: st.bindings }
      match env.cb_alloc_err with
      | some e => (e, { st1 with bindings := st1.bindings.erase (dev.id, bt) })
      | none => (0, { st1 with cbs := (dev.id, bt) :: st1.cbs })
  | .unbind, bt =>
    if ¬ mlx5e_rep_indr_block_priv_lookup st dev.id bt then (-ENOENT, st)
    else if (dev.id, bt) ∉ st.cbs then (-ENOENT, st)
    else (0, ⟨st.bindings.erase (dev.id, bt), st.cbs.erase (dev.id, bt)⟩)
  | .other, _ => (-EOPNOTSUPP, st)

/-- `mlx5e_rep_indr_setup_block` (tc.c:430-513): the eligibility and
direction guards, then the command switch. -/
def mlx5e_rep_indr_setup_block (env : BlockEnv) (st : BlockState)
    (dev : NetDev) (cmd : BlockCommand) (bt : BinderType) : Int × BlockState :=
  if (¬ dev.tun_offloadable ∧ ¬ (dev.is_vlan ∧ dev.vlan_real_is_rep) ∧
        ¬ dev.is_ovs_master) ∧
      ¬ (dev.is_macvlan ∧ dev.macvlan_real_is_rep) then
    (-EOPNOTSUPP, st)
  else if (¬ dev.tun_offloadable ∧ ¬ (dev.is_vlan ∧ dev.vlan_real_is_rep) ∧
        ¬ dev.is_ovs_master) ∧
      ¬ mlx5e_rep_macvlan_mode_supported dev then
    (-EOPNOTSUPP, st)
  else if bt ≠ BinderType.clsactIngress ∧ bt ≠ BinderType.clsactEgress then
    (-EOPNOTSUPP, st)
  else if bt = BinderType.clsactEgress ∧ ¬ dev.is_ovs_master then
    (-EOPNOTSUPP, st)
  else if dev.is_ovs_master ∧ ¬ env.int_port_supported then
    (-EOPNOTSUPP, st)
  else
    mlx5e_rep_indr_setup_block_cmd env st dev cmd bt

/-- The conjunction of all five guards of `mlx5e_rep_indr_setup_block`:
the device is eligible, the direction is valid, egress only for
virtual-switch internal ports, and internal-port offload is supported
when needed. -/
def indr_block_guards_ok (env : BlockEnv) (dev : NetDev) (bt : BinderType) : Prop :=
  (dev.tun_offloadable ∨ (dev.is_vlan ∧ dev.vlan_real_is_rep) ∨ dev.is_ovs_master ∨
      (dev.is_macvlan ∧ dev.macvlan_real_is_rep ∧ mlx5e_rep_macvlan_mode_supported dev)) ∧
    (bt = BinderType.clsactIngress ∨ bt = BinderType.clsactEgress) ∧
    (bt = BinderType.clsactEgress → dev.is_ovs_master) ∧
    (dev.is_ovs_master → env.int_port_supported)

instance (env : BlockEnv) (dev : NetDev) (bt : BinderType) :
    Decidable (indr_block_guards_ok env dev bt) := by
  unfold indr_block_guards_ok
  infer_instance

/-! ## Action-only (no-device) path: `mlx5e_rep_indr_replace_act` (C7) -/

/-- `enum mlx5_flow_namespace_type` values used here: the switch-offload
namespace (`MLX5_FLOW_NAMESPACE_FDB`) and the kernel namespace. -/
inductive NsType
  | fdb
  | kernel
  deriving DecidableEq, Repr

/-- `struct mlx5e_tc_act`: a registered action handler.  `offload_action`
takes the action entry (modelled by its id) and returns 0 on success;
the destroy/stats capabilities are modelled by their delegated result. -/
structure TcAct where
  offload_action : Option (Nat → Int)
  destroy_action : Option Int
  stats_action : Option Int

/-- Environment of the action path: whether the eswitch exists and is in
offload mode (`MLX5_ESWITCH_OFFLOADS`), and the action-binding registry
`mlx5e_tc_act_get` mapping an action id and namespace to a handler. -/
structure ActEnv where
  esw_present : Bool
  esw_mode_offloads : Bool
  tc_act_get : Nat → NsType → Option TcAct

/-- `flow_offload_has_one_action`: the action set has exactly one entry. -/
def flow_offload_has_one_action (actions : List Nat) : Bool :=
  actions.length == 1

/-- `mlx5e_rep_indr_replace_act` (tc.c:515-552).  The action set is the
list of action ids.  Multi-action (or empty) sets are rejected before any
handler lookup; otherwise each action's handler is looked up in the
applicable namespace and `add` becomes true when some handler's offload
step returns 0. -/
def mlx5e_rep_indr_replace_act (env : ActEnv) (actions : List Nat) : Int :=
  if ¬ flow_offload_has_one_action actions then -EOPNOTSUPP
  else
    let ns_type : NsType :=
      if env.esw_present ∧ env.esw_mode_offloads then .fdb else .kernel
    let add := actions.foldl (fun add a =>
      match env.tc_act_get a ns_type with
      | none => add
      | some act =>
        match act.offload_action with
        | none => add
        | some off => if off a = 0 then true else add) false
    if add then 0 else -EOPNOTSUPP

/-! ## Receive metadata restorer (C4, C5, C9, C10) -/

/-- `enc_control.addr_type` of a recovered tunnel key:
`FLOW_DISSECTOR_KEY_IPV4_ADDRS`, `FLOW_DISSECTOR_KEY_IPV6_ADDRS`, or
any other address family. -/
inductive AddrType
  | ipv4
  | ipv6
  | other
  deriving DecidableEq, Repr

/-- `struct tunnel_match_key` as used by `mlx5e_restore_tunnel`:
addresses are modelled as `Nat` (covering both families). -/
structure TunnelMatchKey where
  addr_type : AddrType
  src : Nat
  dst : Nat
  tos : Nat
  ttl : Nat
  tp_src : Nat
  tp_dst : Nat
  keyid : Nat
  filter_ifindex : Nat
  deriving DecidableEq, Repr

/-- `struct tunnel_match_enc_opts` (zero-initialised by `= {}`). -/
structure TunnelEncOpts where
  len : Nat
  data : List Nat
  dst_opt_type : Nat
  deriving DecidableEq, Repr

/-- The tunnel-metadata descriptor built by `__ip_tun_set_dst` /
`__ipv6_tun_set_dst` and attached to the packet (`metadata_dst`
tunnel info), including the option bytes copied in by
`ip_tunnel_info_opts_set`. -/
structure TunnelInfo where
  family : AddrType
  src : Nat
  dst : Nat
  tos : Nat
  ttl : Nat
  tp_dst : Nat
  tp_src : Nat
  tun_id : Nat
  opts_len : Nat
  opts : List Nat
  opt_type : Nat
  deriving DecidableEq, Repr

/-- The packet state this file touches: owning device, `skb->mark`,
the attached tunnel metadata (`skb_dst_set`), and the chain recorded in
the tc skb extension. -/
structure Skb where
  dev : Nat
  mark : Nat
  tun_dst : Option TunnelInfo
  ext_chain : Option Nat
  deriving DecidableEq, Repr

/-- `struct mlx5e_tc_update_priv`: the pending forward device. -/
structure TcUpdatePriv where
  fwd_dev : Option Nat
  deriving DecidableEq, Repr

/-- `struct mlx5_mapped_obj`: the tagged union decoded from `reg_c0`,
with `.invalid` for any other type value. -/
inductive MappedObj
  | chain (c : Nat)
  | sample (tunnel_id : Nat)
  | intPort (metadata : Nat)
  | invalid
  deriving DecidableEq, Repr

/-- Environment of the receive path: the bit-layout constants from the
driver headers (`ENC_OPTS_BITS`, `ESW_TUN_OFFSET`, widths of
`TUNNEL_ID_MASK` and `ESW_ZONE_ID_MASK`, `MLX5_FS_DEFAULT_FLOW_TAG`),
the mapping service (tunnel keys, tunnel options, the `reg_c0` object
pool), and the external collaborators `tc_skb_ext_alloc`,
`mlx5e_tc_ct_restore_flow`, `mlx5_ipsec_is_rx_flow`,
`mlx5e_tc_int_port_dev_fwd`, tunnel-dst allocation and
`dev_get_by_index`. -/
structure ReceiveEnv where
  enc_opts_bits : Nat
  tunnel_mapping : Nat → Option TunnelMatchKey
  tunnel_enc_opts_mapping : Nat → Option TunnelEncOpts
  tun_dst_alloc_ok : Bool
  dev_get_by_index : Nat → Option Nat
  reg_c0_obj : Nat → Option MappedObj
  default_flow_tag : Nat
  tun_offset : Nat
  tunnel_id_bits : Nat
  zone_bits : Nat
  skb_ext_alloc_ok : Bool
  ct_restore_ok : Nat → Bool
  ipsec_rx : Bool
  int_port_fwd : Nat → Option Bool

/-- Result of `mlx5e_restore_tunnel`. -/
structure TunnelRestoreResult where
  ok : Bool
  skb : Skb
  tc_priv : TcUpdatePriv
  deriving Repr

/-- The common tail of the IPv4/IPv6 arms of `mlx5e_restore_tunnel`
(tc.c:710-756): build the tunnel descriptor of family `fam` (failing if
the dst allocation fails), set `tp_src`, copy option bytes when present,
attach the descriptor to the packet, and resolve the filter interface —
recording it as the pending forward device on success. -/
def mlx5e_restore_tunnel_finish (env : ReceiveEnv) (skb : Skb)
    (tc_priv : TcUpdatePriv) (key : TunnelMatchKey) (enc_opts : TunnelEncOpts)
    (fam : AddrType) : TunnelRestoreResult :=
  if ¬ env.tun_dst_alloc_ok then ⟨false, skb, tc_priv⟩
  else
    let td : TunnelInfo :=
      ⟨fam, key.src, key.dst, key.tos, key.ttl, key.tp_dst, key.tp_src,
       key.keyid, enc_opts.len,
       if enc_opts.len ≠ 0 then enc_opts.data else [],
       if enc_opts.len ≠ 0 then enc_opts.dst_opt_type else 0⟩
    let skb1 : Skb := { skb with tun_dst := some td }
    match env.dev_get_by_index key.filter_ifindex with
    | none => ⟨false, skb1, tc_priv⟩
    | some d => ⟨true, { skb1 with dev := d }, { tc_priv with fwd_dev := some d }⟩

/-- `mlx5e_restore_tunnel` (tc.c:668-757).  The tunnel id is split into
an options id (low `ENC_OPTS_BITS` bits) and a base id; a zero base id
is trivial success; mapping misses, an unsupported address family,
allocation failure, or an unresolvable filter interface yield failure. -/
def mlx5e_restore_tunnel (env : ReceiveEnv) (skb : Skb)
    (tc_priv : TcUpdatePriv) (tunnel_id : Nat) : TunnelRestoreResult :=
  let enc_opts_id := tunnel_id % 2 ^ env.enc_opts_bits
  let tun_id := tunnel_id / 2 ^ env.enc_opts_bits
  if tun_id = 0 then ⟨true, skb, tc_priv⟩
  else
    match env.tunnel_mapping tun_id with
    | none => ⟨false, skb, tc_priv⟩
    | some key =>
      match
        (if enc_opts_id ≠ 0 then env.tunnel_enc_opts_mapping enc_opts_id
         else some ⟨0, [], 0⟩) with
      | none => ⟨false, skb, tc_priv⟩
      | some enc_opts =>
        match key.addr_type with
        | .ipv4 => mlx5e_restore_tunnel_finish env skb tc_priv key enc_opts .ipv4
        | .ipv6 => mlx5e_restore_tunnel_finish env skb tc_priv key enc_opts .ipv6
        | .other => ⟨false, skb, tc_priv⟩

/-- `mlx5_rep_tc_post_napi_receive` (tc.c:792-796): the number of
`dev_put` calls it performs (1 when a forward device is pending). -/
def mlx5_rep_tc_post_napi_receive (tc_priv : TcUpdatePriv) : Nat :=
  if tc_priv.fwd_dev.isSome then 1 else 0

/-- Result of `mlx5e_restore_skb_chain`, with the zone-restore id handed
to the connection-tracking restorer when it was invoked. -/
structure ChainRestoreResult where
  ok : Bool
  skb : Skb
  tc_priv : TcUpdatePriv
  ct_zone : Option Nat
  deriving Repr

/-- `mlx5e_restore_skb_chain` (tc.c:759-790), with
`CONFIG_NET_TC_SKB_EXT` enabled: for a nonzero chain, allocate the tc
skb extension (failure fails the restore), record the chain, and invoke
the connection-tracking restorer with the zone-restore id from `reg_c1`
(failure fails the restore); then, regardless of chain, attempt tunnel
restore with the tunnel id extracted from `reg_c1`. -/
def mlx5e_restore_skb_chain (env : ReceiveEnv) (skb : Skb) (chain : Nat)
    (reg_c1 : Nat) (tc_priv : TcUpdatePriv) : ChainRestoreResult :=
  let tunnel_id := (reg_c1 / 2 ^ env.tun_offset) % 2 ^ env.tunnel_id_bits
  if chain ≠ 0 then
    if ¬ env.skb_ext_alloc_ok then ⟨false, skb, tc_priv, none⟩
    else
      let skb1 : Skb := { skb with ext_chain := some chain }
      let zone := reg_c1 % 2 ^ env.zone_bits
      if ¬ env.ct_restore_ok zone then ⟨false, skb1, tc_priv, some zone⟩
      else
        let r := mlx5e_restore_tunnel env skb1 tc_priv tunnel_id
        ⟨r.ok, r.skb, r.tc_priv, some zone⟩
  else
    let r := mlx5e_restore_tunnel env skb tc_priv tunnel_id
    ⟨r.ok, r.skb, r.tc_priv, none⟩

/-- Result of `mlx5e_restore_skb_sample`: whether `mlx5e_tc_sample_skb`
was invoked and how many `dev_put` calls were made. -/
structure SampleRestoreResult where
  skb : Skb
  tc_priv : TcUpdatePriv
  sampled : Bool
  dev_puts : Nat
  deriving Repr

/-- `mlx5e_restore_skb_sample` (tc.c:798-809): attempt tunnel restore
with the sample's embedded tunnel id; on failure return without
sampling; on success hand the packet to the sampling collector and
finish the receive-path bookkeeping. -/
def mlx5e_restore_skb_sample (env : ReceiveEnv) (skb : Skb)
    (tunnel_id : Nat) (tc_priv : TcUpdatePriv) : SampleRestoreResult :=
  let r := mlx5e_restore_tunnel env skb tc_priv tunnel_id
  if ¬ r.ok then ⟨r.skb, r.tc_priv, false, 0⟩
  else ⟨r.skb, r.tc_priv, true, mlx5_rep_tc_post_napi_receive r.tc_priv⟩

/-- Result of `mlx5e_restore_skb_int_port`. -/
structure IntPortRestoreResult where
  ok : Bool
  skb : Skb
  tc_priv : TcUpdatePriv
  forward_tx : Bool
  deriving Repr

/-- `mlx5e_restore_skb_int_port` (tc.c:811-838): tunnel restore takes
precedence when the `reg_c1` tunnel id is nonzero; otherwise delegate to
the internal-port forwarding resolver, recording the packet's current
device as the pending forward device on success. -/
def mlx5e_restore_skb_int_port (env : ReceiveEnv) (skb : Skb)
    (metadata : Nat) (tc_priv : TcUpdatePriv) (reg_c1 : Nat) :
    IntPortRestoreResult :=
  let tunnel_id := (reg_c1 / 2 ^ env.tun_offset) % 2 ^ env.tunnel_id_bits
  if tunnel_id ≠ 0 then
    let r := mlx5e_restore_tunnel env skb tc_priv tunnel_id
    ⟨r.ok, r.skb, r.tc_priv, false⟩
  else
    match env.int_port_fwd metadata with
    | some ft => ⟨true, skb, { tc_priv with fwd_dev := some skb.dev }, ft⟩
    | none => ⟨false, skb, tc_priv, false⟩

/-- The fate of the packet: delivered up the stack
(`napi_gro_receive`), transmitted on the egress path
(`dev_queue_xmit`), or freed (`dev_kfree_skb_any`). -/
inductive Disposition
  | deliver
  | forwardTx
  | freed
  deriving DecidableEq, Repr

/-- Observable outcome of `mlx5e_rep_tc_receive`: the packet's fate and
final state, whether the sampling collector was invoked, the number of
`dev_put` calls, the number of `reg_c0` object-pool lookups, and the
zone id handed to the connection-tracking restorer (if invoked). -/
structure ReceiveResult where
  disp : Disposition
  skb : Skb
  sampled : Bool
  dev_puts : Nat
  c0_lookups : Nat
  ct_zone : Option Nat
  deriving DecidableEq, Repr

/-- The decode stage of `mlx5e_rep_tc_receive` (tc.c:861-898): look up
the `reg_c0` object, dispatch on its variant, and conclude with the
`forward` label (`dev_queue_xmit` or `napi_gro_receive`, then
`mlx5_rep_tc_post_napi_receive`) or the `free_skb` label
(`dev_kfree_skb_any`, with no bookkeeping). -/
def mlx5e_rep_tc_receive_decode (env : ReceiveEnv) (reg_c0 reg_c1 : Nat)
    (skb : Skb) : ReceiveResult :=
  match env.reg_c0_obj reg_c0 with
  | none => ⟨.freed, skb, false, 0, 1, none⟩
  | some (.chain c) =>
    let r := mlx5e_restore_skb_chain env skb c reg_c1 ⟨none⟩
    if ¬ r.ok ∧ ¬ env.ipsec_rx then ⟨.freed, r.skb, false, 0, 1, r.ct_zone⟩
    else ⟨.deliver, r.skb, false, mlx5_rep_tc_post_napi_receive r.tc_priv, 1, r.ct_zone⟩
  | some (.sample tid) =>
    let r := mlx5e_restore_skb_sample env skb tid ⟨none⟩
    ⟨.freed, r.skb, r.sampled, r.dev_puts, 1, none⟩
  | some (.intPort md) =>
    let r := mlx5e_restore_skb_int_port env skb md ⟨none⟩ reg_c1
    if ¬ r.ok then ⟨.freed, r.skb, false, 0, 1, none⟩
    else ⟨if r.forward_tx then .forwardTx else .deliver, r.skb, false,
          mlx5_rep_tc_post_napi_receive r.tc_priv, 1, none⟩
  | some .invalid => ⟨.freed, skb, false, 0, 1, none⟩

/-- `mlx5e_rep_tc_receive` (tc.c:840-899).  `reg_c0` is the
hardware-stamped tag already masked by `MLX5E_TC_FLOW_ID_MASK`; a zero
or default-flow-tag value forwards the packet up the stack untouched;
any other value has `skb->mark` reset to 0 before the decode stage. -/
def mlx5e_rep_tc_receive (env : ReceiveEnv) (reg_c0 reg_c1 : Nat)
    (skb : Skb) : ReceiveResult :=
  if reg_c0 = 0 ∨ reg_c0 = env.default_flow_tag then
    ⟨.deliver, skb, false, mlx5_rep_tc_post_napi_receive ⟨none⟩, 0, none⟩
  else
    mlx5e_rep_tc_receive_decode env reg_c0 reg_c1 { skb with mark := 0 }

end RepTc

namespace RepTc

/-! ## Theorems for C6 and C2 -/

/-- C6: `mlx5e_rep_update_flows` is idempotent — when the requested
`(neigh_connected, ha)` pair equals the entry's current validity flag and
destination MAC, no hardware flow teardown (`mlx5e_tc_encap_flows_del`)
and no reinstall (`mlx5e_tc_encap_flows_add`) occurs, and the entry —
in particular its encapsulation header bytes — is returned unchanged. -/
theorem update_flows_idempotent (env : UpdateFlowsEnv) (e : EncapEntry)
    (neigh_connected : Bool) (ha : Nat)
    (hvalid : e.valid = neigh_connected) (hmac : e.h_dest = ha) :
    mlx5e_rep_update_flows env e neigh_connected ha = (e, false, false) := by
  unfold mlx5e_rep_update_flows
  rw [if_pos ⟨hvalid, hmac⟩]

/-- Witness for C6 at a concrete entry. -/
theorem update_flows_idempotent_witness :
    (⟨true, 7, 7, 3, 1⟩ : EncapEntry).valid = true ∧
      (⟨true, 7, 7, 3, 1⟩ : EncapEntry).h_dest = 7 ∧
      mlx5e_rep_update_flows ⟨fun _ => none⟩ ⟨true, 7, 7, 3, 1⟩ true 7 =
        (⟨true, 7, 7, 3, 1⟩, false, false) :=
  ⟨rfl, rfl, update_flows_idempotent ⟨fun _ => none⟩ ⟨true, 7, 7, 3, 1⟩ true 7 rfl rfl⟩

/-- C2: if the entropy refcount increment succeeds but neighbor-entry
creation fails (the key has no existing entry and `create` errors),
attach returns that error, the entropy refcount map is unchanged
(the increment is rolled back), the neighbor table and every encap list
are unchanged, and no encap entry is attached (`nhe` back-reference is
`none`). -/
theorem encap_attach_rollback (env : AttachEnv) (st : NeighState)
    (eid rt key : Nat) (err : Int)
    (hinc : env.entropy_inc_err rt = none)
    (hmiss : key ∉ st.nhes)
    (hcreate : env.neigh_create_err = some err) :
    (mlx5e_rep_encap_entry_attach env st eid rt key).1 = err ∧
      (mlx5e_rep_encap_entry_attach env st eid rt key).2.1.entropy = st.entropy ∧
      (mlx5e_rep_encap_entry_attach env st eid rt key).2.1.nhes = st.nhes ∧
      (mlx5e_rep_encap_entry_attach env st eid rt key).2.1.encapList = st.encapList ∧
      (mlx5e_rep_encap_entry_attach env st eid rt key).2.2 = none := by
  unfold mlx5e_rep_encap_entry_attach
  rw [hinc]
  simp only [hmiss, if_neg, hcreate]
  refine ⟨rfl, ?_, rfl, rfl, rfl⟩
  funext r
  by_cases h : r = rt <;> simp [h]

/-- Witness for C2 at a concrete state and environment. -/
theorem encap_attach_rollback_witness :
    (⟨fun _ => none, some (-12)⟩ : AttachEnv).entropy_inc_err 4 = none ∧
      (9 : Nat) ∉ ([5] : List Nat) ∧
      (⟨fun _ => none, some (-12)⟩ : AttachEnv).neigh_create_err = some (-12) ∧
      ((mlx5e_rep_encap_entry_attach ⟨fun _ => none, some (-12)⟩
          ⟨fun _ => 2, [5], fun _ => []⟩ 1 4 9).1 = -12 ∧
        (mlx5e_rep_encap_entry_attach ⟨fun _ => none, some (-12)⟩
          ⟨fun _ => 2, [5], fun _ => []⟩ 1 4 9).2.1.entropy = fun _ => 2) := by
  refine ⟨rfl, by decide, rfl, ?_⟩
  have h := encap_attach_rollback ⟨fun _ => none, some (-12)⟩
    ⟨fun _ => 2, [5], fun _ => []⟩ 1 4 9 (-12) rfl (by decide) rfl
  exact ⟨h.1, h.2.1⟩

/-- A concrete dispatch environment used by witnesses: priorities
supported with range 10, reserved chain 99, device present, installer
oracles that succeed and bump the stats packet counter. -/
def sampleFtEnv : FtEnv :=
  ⟨true, 10, 99, true,
   fun f _ => (0, { f.stats with pkts := f.stats.pkts + 1 }),
   fun f _ => (0, f.stats),
   fun f _ => (0, { f.stats with bytes := f.stats.bytes + 5 })⟩

/-- C1: for both flow-table remap paths (direct `mlx5e_rep_setup_ft_cb`
and indirect `mlx5e_rep_indr_setup_ft_cb`), a classifier command whose
chain index is nonzero or whose priority is not strictly below the
chains manager's priority range is rejected with `-EOPNOTSUPP` and never
replayed; and — when the chains manager supports priorities (the remap
path's enabling condition, checked first by both paths) — a command with
chain index 0 and priority strictly below the range is rewritten to the
reserved chain `mlx5_chains_get_nf_ft_chain` with priority incremented
by one, replayed through the primary dispatch exactly once (a singleton
trace), and the temporary descriptor's stats field is copied back into
the original descriptor unchanged. -/
theorem ft_remap_spec :
    (∀ (env : FtEnv) (f : FlowClsOffload),
      f.common.chain_index ≠ 0 ∨ env.prio_range ≤ f.common.prio →
      mlx5e_rep_setup_ft_cb env .clsflower f = (-EOPNOTSUPP, f, []) ∧
        mlx5e_rep_indr_setup_ft_cb env .clsflower f = (-EOPNOTSUPP, f, [])) ∧
    (∀ (env : FtEnv) (f : FlowClsOffload),
      env.prios_supported = true →
      f.common.chain_index = 0 →
      f.common.prio < env.prio_range →
      mlx5e_rep_setup_ft_cb env .clsflower f =
        ((mlx5e_rep_setup_tc_cls_flower env
            { f with common := { chain_index := env.nf_ft_chain, prio := f.common.prio + 1 } }
            ft_cb_flags).1,
         { f with stats :=
            (mlx5e_rep_setup_tc_cls_flower env
              { f with common := { chain_index := env.nf_ft_chain, prio := f.common.prio + 1 } }
              ft_cb_flags).2 },
         [({ f with common := { chain_index := env.nf_ft_chain, prio := f.common.prio + 1 } },
           ft_cb_flags)]) ∧
      mlx5e_rep_indr_setup_ft_cb env .clsflower f =
        ((mlx5e_rep_indr_offload env
            { f with common := { chain_index := env.nf_ft_chain, prio := f.common.prio + 1 } }
            indr_ft_cb_flags).1,
         { f with stats :=
            (mlx5e_rep_indr_offload env
              { f with common := { chain_index := env.nf_ft_chain, prio := f.common.prio + 1 } }
              indr_ft_cb_flags).2 },
         [({ f with common := { chain_index := env.nf_ft_chain, prio := f.common.prio + 1 } },
           indr_ft_cb_flags)])) := by
  constructor
  · intro env f h
    by_cases hp : env.prios_supported
    · rcases h with hc | hr
      · by_cases hr2 : env.prio_range ≤ f.common.prio
        · constructor <;> simp [mlx5e_rep_setup_ft_cb, mlx5e_rep_indr_setup_ft_cb, hp, hr2]
        · constructor <;>
            simp [mlx5e_rep_setup_ft_cb, mlx5e_rep_indr_setup_ft_cb, hp, hr2, hc]
      · constructor <;> simp [mlx5e_rep_setup_ft_cb, mlx5e_rep_indr_setup_ft_cb, hp, hr]
    · constructor <;> simp [mlx5e_rep_setup_ft_cb, mlx5e_rep_indr_setup_ft_cb, hp]
  · intro env f hp hc hr
    constructor
    · simp [mlx5e_rep_setup_ft_cb, hp, hc, Nat.not_le.mpr hr]
    · simp [mlx5e_rep_indr_setup_ft_cb, hp, hc, Nat.not_le.mpr hr]

/-- Witness for C1: a chain-5 command is rejected on both paths, and a
chain-0 priority-3 replace command in `sampleFtEnv` (range 10, reserved
chain 99) is rewritten to (99, 4), replayed once, and gets the installer's
stats copied back. -/
theorem ft_remap_spec_witness :
    ((⟨.replace, ⟨5, 3⟩, ⟨0, 0, 0, 0⟩⟩ : FlowClsOffload).common.chain_index ≠ 0 ∨
        sampleFtEnv.prio_range ≤ (⟨.replace, ⟨5, 3⟩, ⟨0, 0, 0, 0⟩⟩ : FlowClsOffload).common.prio) ∧
      mlx5e_rep_setup_ft_cb sampleFtEnv .clsflower ⟨.replace, ⟨5, 3⟩, ⟨0, 0, 0, 0⟩⟩ =
        (-EOPNOTSUPP, ⟨.replace, ⟨5, 3⟩, ⟨0, 0, 0, 0⟩⟩, []) ∧
      (sampleFtEnv.prios_supported = true ∧
        (⟨.replace, ⟨0, 3⟩, ⟨1, 2, 3, 4⟩⟩ : FlowClsOffload).common.chain_index = 0 ∧
        (⟨.replace, ⟨0, 3⟩, ⟨1, 2, 3, 4⟩⟩ : FlowClsOffload).common.prio < sampleFtEnv.prio_range) ∧
      mlx5e_rep_setup_ft_cb sampleFtEnv .clsflower ⟨.replace, ⟨0, 3⟩, ⟨1, 2, 3, 4⟩⟩ =
        (0, ⟨.replace, ⟨0, 3⟩, ⟨2, 2, 3, 4⟩⟩, [(⟨.replace, ⟨99, 4⟩, ⟨1, 2, 3, 4⟩⟩, ft_cb_flags)]) := by
  refine ⟨Or.inl (by decide), ?_, ⟨rfl, rfl, by decide⟩, ?_⟩
  · exact (ft_remap_spec.1 sampleFtEnv ⟨.replace, ⟨5, 3⟩, ⟨0, 0, 0, 0⟩⟩
      (Or.inl (by decide))).1
  · have h := (ft_remap_spec.2 sampleFtEnv ⟨.replace, ⟨0, 3⟩, ⟨1, 2, 3, 4⟩⟩
      rfl rfl (by decide)).1
    simpa [sampleFtEnv, mlx5e_rep_setup_tc_cls_flower] using h

/-- When every eligibility/direction guard passes, `mlx5e_rep_indr_setup_block`
reduces to its command switch. -/
theorem indr_setup_block_of_guards (env : BlockEnv) (st : BlockState)
    (dev : NetDev) (cmd : BlockCommand) (bt : BinderType)
    (hok : indr_block_guards_ok env dev bt) :
    mlx5e_rep_indr_setup_block env st dev cmd bt =
      mlx5e_rep_indr_setup_block_cmd env st dev cmd bt := by
  obtain ⟨helig, hdir, hegr, hint⟩ := hok
  simp only [mlx5e_rep_macvlan_mode_supported] at helig
  unfold mlx5e_rep_indr_setup_block
  have h1 : ¬ ((¬ dev.tun_offloadable ∧ ¬ (dev.is_vlan ∧ dev.vlan_real_is_rep) ∧
      ¬ dev.is_ovs_master) ∧ ¬ (dev.is_macvlan ∧ dev.macvlan_real_is_rep)) := by
    tauto
  have h2 : ¬ ((¬ dev.tun_offloadable ∧ ¬ (dev.is_vlan ∧ dev.vlan_real_is_rep) ∧
      ¬ dev.is_ovs_master) ∧ ¬ mlx5e_rep_macvlan_mode_supported dev) := by
    simp only [mlx5e_rep_macvlan_mode_supported]
    tauto
  have h3 : ¬ (bt ≠ BinderType.clsactIngress ∧ bt ≠ BinderType.clsactEgress) := by
    tauto
  have h4 : ¬ (bt = BinderType.clsactEgress ∧ ¬ dev.is_ovs_master) := by
    tauto
  have h5 : ¬ (dev.is_ovs_master ∧ ¬ env.int_port_supported) := by
    tauto
  rw [if_neg h1, if_neg h2, if_neg h3, if_neg h4, if_neg h5]

/-- C3: Bind/Unbind is a strict state machine per `(device, direction)`
pair.  For any device/direction passing the eligibility guards: a Bind
while a binding exists returns `-EEXIST` with the registry unchanged;
an Unbind while no binding exists returns `-ENOENT` with the registry
unchanged; and after a successful Unbind (binding and callback present,
no duplicate bindings, allocations succeeding), a Bind on the same pair
succeeds. -/
theorem indr_block_state_machine (env : BlockEnv) (st : BlockState)
    (dev : NetDev) (bt : BinderType)
    (hok : indr_block_guards_ok env dev bt) :
    ((dev.id, bt) ∈ st.bindings →
        mlx5e_rep_indr_setup_block env st dev .bind bt = (-EEXIST, st)) ∧
      ((dev.id, bt) ∉ st.bindings →
        mlx5e_rep_indr_setup_block env st dev .unbind bt = (-ENOENT, st)) ∧
      (st.bindings.Nodup → (dev.id, bt) ∈ st.bindings → (dev.id, bt) ∈ st.cbs →
        env.kmalloc_ok = true → env.cb_alloc_err = none →
        (mlx5e_rep_indr_setup_block env st dev .unbind bt).1 = 0 ∧
          (mlx5e_rep_indr_setup_block env
            (mlx5e_rep_indr_setup_block env st dev .unbind bt).2 dev .bind bt).1 = 0) := by
  refine ⟨?_, ?_, ?_⟩
  · intro hmem
    rw [indr_setup_block_of_guards env st dev .bind bt hok]
    simp only [mlx5e_rep_indr_setup_block_cmd, mlx5e_rep_indr_block_priv_lookup]
    rw [if_pos hmem]
  · intro hmiss
    rw [indr_setup_block_of_guards env st dev .unbind bt hok]
    simp only [mlx5e_rep_indr_setup_block_cmd, mlx5e_rep_indr_block_priv_lookup]
    rw [if_pos hmiss]
  · intro hnodup hmem hcb hkm hcba
    rw [indr_setup_block_of_guards env st dev .unbind bt hok]
    simp only [mlx5e_rep_indr_setup_block_cmd, mlx5e_rep_indr_block_priv_lookup]
    rw [if_neg (not_not_intro hmem), if_neg (not_not_intro hcb)]
    refine ⟨rfl, ?_⟩
    rw [indr_setup_block_of_guards env _ dev .bind bt hok]
    simp only [mlx5e_rep_indr_setup_block_cmd, mlx5e_rep_indr_block_priv_lookup]
    have hnm : (dev.id, bt) ∉ st.bindings.erase (dev.id, bt) := by
      intro h
      exact absurd rfl ((hnodup.mem_erase_iff.mp h).1)
    rw [if_neg hnm, if_neg (by simp [hkm]), hcba]

/-- Witness for C3 at a concrete registry: device 1 bound on ingress;
rebind fails with `-EEXIST`, unbind of an unbound pair fails with
`-ENOENT`, and unbind-then-bind both succeed. -/
theorem indr_block_state_machine_witness :
    indr_block_guards_ok ⟨true, true, none⟩
        ⟨1, true, false, false, false, false, false, false⟩ .clsactIngress ∧
      ((1 : Nat), BinderType.clsactIngress) ∈
        ([((1 : Nat), BinderType.clsactIngress)] : List (Nat × BinderType)) ∧
      mlx5e_rep_indr_setup_block ⟨true, true, none⟩
          ⟨[(1, .clsactIngress)], [(1, .clsactIngress)]⟩
          ⟨1, true, false, false, false, false, false, false⟩ .bind .clsactIngress =
        (-EEXIST, ⟨[(1, .clsactIngress)], [(1, .clsactIngress)]⟩) ∧
      mlx5e_rep_indr_setup_block ⟨true, true, none⟩ ⟨[], []⟩
          ⟨1, true, false, false, false, false, false, false⟩ .unbind .clsactIngress =
        (-ENOENT, ⟨[], []⟩) ∧
      (mlx5e_rep_indr_setup_block ⟨true, true, none⟩
          ⟨[(1, .clsactIngress)], [(1, .clsactIngress)]⟩
          ⟨1, true, false, false, false, false, false, false⟩ .unbind .clsactIngress).1 = 0 ∧
      (mlx5e_rep_indr_setup_block ⟨true, true, none⟩
          (mlx5e_rep_indr_setup_block ⟨true, true, none⟩
            ⟨[(1, .clsactIngress)], [(1, .clsactIngress)]⟩
            ⟨1, true, false, false, false, false, false, false⟩ .unbind .clsactIngress).2
          ⟨1, true, false, false, false, false, false, false⟩ .bind .clsactIngress).1 = 0 := by
  have h := indr_block_state_machine ⟨true, true, none⟩
    ⟨[(1, .clsactIngress)], [(1, .clsactIngress)]⟩
    ⟨1, true, false, false, false, false, false, false⟩ .clsactIngress (by decide)
  have h0 := indr_block_state_machine ⟨true, true, none⟩ ⟨[], []⟩
    ⟨1, true, false, false, false, false, false, false⟩ .clsactIngress (by decide)
  have hseq := h.2.2 (by decide) (by decide) (by decide) rfl rfl
  exact ⟨by decide, by decide, h.1 (by decide), h0.2.1 (by decide), hseq.1, hseq.2⟩

/-- C8: indirect-block eligibility.  A foreign device that is not a
recognized tunnel device, not a VLAN interface on this representor, not
a virtual-switch internal port, and not a passthrough-mode macvlan on
this representor is rejected with `-EOPNOTSUPP`; an egress binding on a
device that is not a virtual-switch internal port is rejected with
`-EOPNOTSUPP` (so egress is accepted only for such ports); and a
binder direction other than ingress/egress is rejected with
`-EOPNOTSUPP`. -/
theorem indr_block_eligibility :
    (∀ (env : BlockEnv) (st : BlockState) (dev : NetDev) (cmd : BlockCommand)
        (bt : BinderType),
      ¬ dev.tun_offloadable → ¬ (dev.is_vlan ∧ dev.vlan_real_is_rep) →
      ¬ dev.is_ovs_master →
      ¬ (dev.is_macvlan ∧ dev.macvlan_real_is_rep ∧ dev.macvlan_passthru) →
      mlx5e_rep_indr_setup_block env st dev cmd bt = (-EOPNOTSUPP, st)) ∧
    (∀ (env : BlockEnv) (st : BlockState) (dev : NetDev) (cmd : BlockCommand),
      ¬ dev.is_ovs_master →
      mlx5e_rep_indr_setup_block env st dev cmd .clsactEgress = (-EOPNOTSUPP, st)) ∧
    (∀ (env : BlockEnv) (st : BlockState) (dev : NetDev) (cmd : BlockCommand),
      mlx5e_rep_indr_setup_block env st dev cmd .other = (-EOPNOTSUPP, st)) := by
  refine ⟨?_, ?_, ?_⟩
  · intro env st dev cmd bt htun hvlan hovs hmac
    unfold mlx5e_rep_indr_setup_block
    by_cases hmr : dev.is_macvlan ∧ dev.macvlan_real_is_rep
    · rw [if_neg (by tauto)]
      rw [if_pos ⟨⟨htun, hvlan, hovs⟩, by
        simp only [mlx5e_rep_macvlan_mode_supported]
        tauto⟩]
    · rw [if_pos ⟨⟨htun, hvlan, hovs⟩, hmr⟩]
  · intro env st dev cmd hovs
    unfold mlx5e_rep_indr_setup_block
    split
    · rfl
    split
    · rfl
    rw [if_neg (by tauto), if_pos ⟨rfl, hovs⟩]
  · intro env st dev cmd
    unfold mlx5e_rep_indr_setup_block
    split
    · rfl
    split
    · rfl
    rw [if_pos ⟨by decide, by decide⟩]

/-- Witness for C8: a device with no recognized role is rejected; an
egress bind on a plain tunnel device is rejected; an unknown binder
direction is rejected. -/
theorem indr_block_eligibility_witness :
    (¬ (⟨2, false, false, false, false, false, false, false⟩ : NetDev).tun_offloadable ∧
        ¬ ((⟨2, false, false, false, false, false, false, false⟩ : NetDev).is_ovs_master)) ∧
      mlx5e_rep_indr_setup_block ⟨true, true, none⟩ ⟨[], []⟩
          ⟨2, false, false, false, false, false, false, false⟩ .bind .clsactIngress =
        (-EOPNOTSUPP, ⟨[], []⟩) ∧
      mlx5e_rep_indr_setup_block ⟨true, true, none⟩ ⟨[], []⟩
          ⟨1, true, false, false, false, false, false, false⟩ .bind .clsactEgress =
        (-EOPNOTSUPP, ⟨[], []⟩) ∧
      mlx5e_rep_indr_setup_block ⟨true, true, none⟩ ⟨[], []⟩
          ⟨1, true, false, false, false, false, false, false⟩ .bind .other =
        (-EOPNOTSUPP, ⟨[], []⟩) := by
  refine ⟨by decide, ?_, ?_, ?_⟩
  · exact indr_block_eligibility.1 ⟨true, true, none⟩ ⟨[], []⟩
      ⟨2, false, false, false, false, false, false, false⟩ .bind .clsactIngress
      (by decide) (by decide) (by decide) (by decide)
  · exact indr_block_eligibility.2.1 ⟨true, true, none⟩ ⟨[], []⟩
      ⟨1, true, false, false, false, false, false, false⟩ .bind (by decide)
  · exact indr_block_eligibility.2.2 ⟨true, true, none⟩ ⟨[], []⟩
      ⟨1, true, false, false, false, false, false, false⟩ .bind

/-- A concrete receive environment used by witnesses and
counterexamples: 2 option bits, tunnel key 1 is IPv4 (filter ifindex 3,
resolving to device 30), key 2 has an unsupported family, option id 1
is mapped; `reg_c0` 5 decodes to Chain 4, 6 to Sample 4 (restorable),
7 to Sample 12 (mapping miss); default flow tag 1; tunnel id at offset
4 (8 bits wide), zone mask 4 bits; ct restore succeeds for zone 0. -/
def sampleRxEnv : ReceiveEnv where
  enc_opts_bits := 2
  tunnel_mapping := fun n =>
    if n = 1 then some ⟨.ipv4, 10, 20, 1, 64, 100, 200, 7, 3⟩
    else if n = 2 then some ⟨.other, 0, 0, 0, 0, 0, 0, 0, 0⟩ else none
  tunnel_enc_opts_mapping := fun n => if n = 1 then some ⟨2, [9, 9], 1⟩ else none
  tun_dst_alloc_ok := true
  dev_get_by_index := fun n => if n = 3 then some 30 else none
  reg_c0_obj := fun n =>
    if n = 5 then some (.chain 4)
    else if n = 6 then some (.sample 4)
    else if n = 7 then some (.sample 12)
    else none
  default_flow_tag := 1
  tun_offset := 4
  tunnel_id_bits := 8
  zone_bits := 4
  skb_ext_alloc_ok := true
  ct_restore_ok := fun z => z = 0
  ipsec_rx := false
  int_port_fwd := fun m => if m = 1 then some true else none

/-- C4: `mlx5e_restore_tunnel` — a zero base id is trivial success with
the packet and forward-device state untouched; a mapping miss on a
nonzero base id, or on a nonzero options id, is failure with nothing
attached; a decoded IPv4/IPv6 key (with the dst allocation succeeding)
attaches a tunnel descriptor of the same address family to the packet;
any other address family is failure with nothing attached. -/
theorem restore_tunnel_spec :
    (∀ (env : ReceiveEnv) (skb : Skb) (tc_priv : TcUpdatePriv) (tunnel_id : Nat),
      tunnel_id / 2 ^ env.enc_opts_bits = 0 →
      mlx5e_restore_tunnel env skb tc_priv tunnel_id = ⟨true, skb, tc_priv⟩) ∧
    (∀ (env : ReceiveEnv) (skb : Skb) (tc_priv : TcUpdatePriv) (tunnel_id : Nat),
      tunnel_id / 2 ^ env.enc_opts_bits ≠ 0 →
      env.tunnel_mapping (tunnel_id / 2 ^ env.enc_opts_bits) = none →
      mlx5e_restore_tunnel env skb tc_priv tunnel_id = ⟨false, skb, tc_priv⟩) ∧
    (∀ (env : ReceiveEnv) (skb : Skb) (tc_priv : TcUpdatePriv) (tunnel_id : Nat)
        (key : TunnelMatchKey),
      tunnel_id / 2 ^ env.enc_opts_bits ≠ 0 →
      env.tunnel_mapping (tunnel_id / 2 ^ env.enc_opts_bits) = some key →
      tunnel_id % 2 ^ env.enc_opts_bits ≠ 0 →
      env.tunnel_enc_opts_mapping (tunnel_id % 2 ^ env.enc_opts_bits) = none →
      mlx5e_restore_tunnel env skb tc_priv tunnel_id = ⟨false, skb, tc_priv⟩) ∧
    (∀ (env : ReceiveEnv) (skb : Skb) (tc_priv : TcUpdatePriv) (tunnel_id : Nat)
        (key : TunnelMatchKey) (eo : TunnelEncOpts),
      tunnel_id / 2 ^ env.enc_opts_bits ≠ 0 →
      env.tunnel_mapping (tunnel_id / 2 ^ env.enc_opts_bits) = some key →
      (if tunnel_id % 2 ^ env.enc_opts_bits ≠ 0 then
          env.tunnel_enc_opts_mapping (tunnel_id % 2 ^ env.enc_opts_bits)
        else some ⟨0, [], 0⟩) = some eo →
      (key.addr_type = AddrType.ipv4 ∨ key.addr_type = AddrType.ipv6) →
      env.tun_dst_alloc_ok = true →
      ∃ td, (mlx5e_restore_tunnel env skb tc_priv tunnel_id).skb.tun_dst = some td ∧
        td.family = key.addr_type) ∧
    (∀ (env : ReceiveEnv) (skb : Skb) (tc_priv : TcUpdatePriv) (tunnel_id : Nat)
        (key : TunnelMatchKey) (eo : TunnelEncOpts),
      tunnel_id / 2 ^ env.enc_opts_bits ≠ 0 →
      env.tunnel_mapping (tunnel_id / 2 ^ env.enc_opts_bits) = some key →
      (if tunnel_id % 2 ^ env.enc_opts_bits ≠ 0 then
          env.tunnel_enc_opts_mapping (tunnel_id % 2 ^ env.enc_opts_bits)
        else some ⟨0, [], 0⟩) = some eo →
      key.addr_type = AddrType.other →
      mlx5e_restore_tunnel env skb tc_priv tunnel_id = ⟨false, skb, tc_priv⟩) := by
  refine ⟨?_, ?_, ?_, ?_, ?_⟩
  · intro env skb tc_priv tunnel_id h
    simp [mlx5e_restore_tunnel, h]
  · intro env skb tc_priv tunnel_id h hmap
    simp [mlx5e_restore_tunnel, h, hmap]
  · intro env skb tc_priv tunnel_id key h hmap hne hnone
    simp [mlx5e_restore_tunnel, h, hmap, hne, hnone]
  · intro env skb tc_priv tunnel_id key eo h hmap hopts hfam halloc
    rcases hfam with h4 | h6
    · cases hdev : env.dev_get_by_index key.filter_ifindex with
      | none =>
        simp [mlx5e_restore_tunnel, mlx5e_restore_tunnel_finish, h, hmap, hopts,
          h4, halloc, hdev]
      | some d =>
        simp [mlx5e_restore_tunnel, mlx5e_restore_tunnel_finish, h, hmap, hopts,
          h4, halloc, hdev]
    · cases hdev : env.dev_get_by_index key.filter_ifindex with
      | none =>
        simp [mlx5e_restore_tunnel, mlx5e_restore_tunnel_finish, h, hmap, hopts,
          h6, halloc, hdev]
      | some d =>
        simp [mlx5e_restore_tunnel, mlx5e_restore_tunnel_finish, h, hmap, hopts,
          h6, halloc, hdev]
  · intro env skb tc_priv tunnel_id key eo h hmap hopts hoth
    simp [mlx5e_restore_tunnel, h, hmap, hopts, hoth]

/-- Witness for C4 in `sampleRxEnv`: base id 0 (tunnel id 3) succeeds
untouched; tunnel id 12 (base 3) misses the mapping; tunnel id 6 has a
nonzero options id 2 that misses; tunnel id 4 decodes an IPv4 key and
attaches an IPv4 descriptor; tunnel id 8 decodes an unsupported family
and fails. -/
theorem restore_tunnel_spec_witness :
    ((3 : Nat) / 2 ^ sampleRxEnv.enc_opts_bits = 0 ∧
      mlx5e_restore_tunnel sampleRxEnv ⟨5, 3, none, none⟩ ⟨none⟩ 3 =
        ⟨true, ⟨5, 3, none, none⟩, ⟨none⟩⟩) ∧
    mlx5e_restore_tunnel sampleRxEnv ⟨5, 3, none, none⟩ ⟨none⟩ 12 =
      ⟨false, ⟨5, 3, none, none⟩, ⟨none⟩⟩ ∧
    mlx5e_restore_tunnel sampleRxEnv ⟨5, 3, none, none⟩ ⟨none⟩ 6 =
      ⟨false, ⟨5, 3, none, none⟩, ⟨none⟩⟩ ∧
    (∃ td, (mlx5e_restore_tunnel sampleRxEnv ⟨5, 3, none, none⟩ ⟨none⟩ 4).skb.tun_dst =
        some td ∧ td.family = AddrType.ipv4) ∧
    mlx5e_restore_tunnel sampleRxEnv ⟨5, 3, none, none⟩ ⟨none⟩ 8 =
      ⟨false, ⟨5, 3, none, none⟩, ⟨none⟩⟩ := by
  refine ⟨⟨by decide, ?_⟩, ?_, ?_, ?_, ?_⟩
  · exact restore_tunnel_spec.1 sampleRxEnv ⟨5, 3, none, none⟩ ⟨none⟩ 3 (by decide)
  · exact restore_tunnel_spec.2.1 sampleRxEnv ⟨5, 3, none, none⟩ ⟨none⟩ 12
      (by decide) (by decide)
  · exact restore_tunnel_spec.2.2.1 sampleRxEnv ⟨5, 3, none, none⟩ ⟨none⟩ 6
      ⟨.ipv4, 10, 20, 1, 64, 100, 200, 7, 3⟩ (by decide) (by decide) (by decide) (by decide)
  · exact restore_tunnel_spec.2.2.2.1 sampleRxEnv ⟨5, 3, none, none⟩ ⟨none⟩ 4
      ⟨.ipv4, 10, 20, 1, 64, 100, 200, 7, 3⟩ ⟨0, [], 0⟩
      (by decide) (by decide) (by decide) (Or.inl rfl) rfl
  · exact restore_tunnel_spec.2.2.2.2 sampleRxEnv ⟨5, 3, none, none⟩ ⟨none⟩ 8
      ⟨.other, 0, 0, 0, 0, 0, 0, 0, 0⟩ ⟨0, [], 0⟩
      (by decide) (by decide) (by decide) rfl

/-- C10: a packet whose tag0 is zero or the default flow tag is
delivered up the stack with no object-pool lookup, no decode, and the
packet (in particular its mark) unchanged; any other tag0 value has the
mark reset to 0 before the decode stage runs (processing factors
through the mark-cleared packet). -/
theorem receive_tag_skip_spec :
    (∀ (env : ReceiveEnv) (reg_c0 reg_c1 : Nat) (skb : Skb),
      reg_c0 = 0 ∨ reg_c0 = env.default_flow_tag →
      mlx5e_rep_tc_receive env reg_c0 reg_c1 skb =
        ⟨.deliver, skb, false, 0, 0, none⟩) ∧
    (∀ (env : ReceiveEnv) (reg_c0 reg_c1 : Nat) (skb : Skb),
      reg_c0 ≠ 0 → reg_c0 ≠ env.default_flow_tag →
      mlx5e_rep_tc_receive env reg_c0 reg_c1 skb =
        mlx5e_rep_tc_receive_decode env reg_c0 reg_c1 { skb with mark := 0 }) := by
  constructor
  · intro env reg_c0 reg_c1 skb h
    simp [mlx5e_rep_tc_receive, h, mlx5_rep_tc_post_napi_receive]
  · intro env reg_c0 reg_c1 skb h0 hd
    unfold mlx5e_rep_tc_receive
    rw [if_neg (not_or.mpr ⟨h0, hd⟩)]

/-- Witness for C10: in `sampleRxEnv` (default flow tag 1), tag0 = 1 is
delivered untouched with no lookup; tag0 = 6 factors through the
mark-cleared packet. -/
theorem receive_tag_skip_spec_witness :
    ((1 : Nat) = 0 ∨ (1 : Nat) = sampleRxEnv.default_flow_tag) ∧
      mlx5e_rep_tc_receive sampleRxEnv 1 0 ⟨5, 3, none, none⟩ =
        ⟨.deliver, ⟨5, 3, none, none⟩, false, 0, 0, none⟩ ∧
      ((6 : Nat) ≠ 0 ∧ (6 : Nat) ≠ sampleRxEnv.default_flow_tag) ∧
      mlx5e_rep_tc_receive sampleRxEnv 6 0 ⟨5, 3, none, none⟩ =
        mlx5e_rep_tc_receive_decode sampleRxEnv 6 0 ⟨5, 0, none, none⟩ :=
  ⟨Or.inr (by decide), receive_tag_skip_spec.1 sampleRxEnv 1 0 ⟨5, 3, none, none⟩
      (Or.inr (by decide)),
    ⟨by decide, by decide⟩,
    receive_tag_skip_spec.2 sampleRxEnv 6 0 ⟨5, 3, none, none⟩ (by decide) (by decide)⟩

/-- Counterexample for C5 as stated: in `sampleRxEnv`, tag0 = 7 decodes
to a Sample whose tunnel id 12 fails restore (mapping miss on base id
3); the sampling step is skipped, yet the packet is freed
(`dev_kfree_skb_any` via the `free_skb` label) — it is dropped, not
passed on, contradicting "a restore failure ... without dropping the
packet". -/
theorem sample_restore_fail_freed_cex :
    sampleRxEnv.reg_c0_obj 7 = some (.sample 12) ∧
      (mlx5e_restore_tunnel sampleRxEnv ⟨5, 0, none, none⟩ ⟨none⟩ 12).ok = false ∧
      (mlx5e_rep_tc_receive sampleRxEnv 7 0 ⟨5, 3, none, none⟩).sampled = false ∧
      (mlx5e_rep_tc_receive sampleRxEnv 7 0 ⟨5, 3, none, none⟩).disp =
        Disposition.freed := by
  decide

/-- C5 (amended): for a packet decoding to the Sample variant, tunnel
restore is attempted with the sample's embedded tunnel id; a restore
failure skips the sampling collector and the bookkeeping (no device
release) and the packet is then freed — the same disposition as a
successfully sampled packet, never normal forwarding; on restore
success the sampling collector is invoked and the pending
forward-device reference is released exactly once (one `dev_put` when a
forward device was recorded by the restore). -/
theorem sample_receive_spec (env : ReceiveEnv) (reg_c0 reg_c1 : Nat)
    (skb : Skb) (tid : Nat)
    (h0 : reg_c0 ≠ 0) (hd : reg_c0 ≠ env.default_flow_tag)
    (hobj : env.reg_c0_obj reg_c0 = some (.sample tid)) :
    (mlx5e_rep_tc_receive env reg_c0 reg_c1 skb).disp = Disposition.freed ∧
      ((mlx5e_restore_tunnel env { skb with mark := 0 } ⟨none⟩ tid).ok = false →
        (mlx5e_rep_tc_receive env reg_c0 reg_c1 skb).sampled = false ∧
          (mlx5e_rep_tc_receive env reg_c0 reg_c1 skb).dev_puts = 0) ∧
      ((mlx5e_restore_tunnel env { skb with mark := 0 } ⟨none⟩ tid).ok = true →
        (mlx5e_rep_tc_receive env reg_c0 reg_c1 skb).sampled = true ∧
          (mlx5e_rep_tc_receive env reg_c0 reg_c1 skb).dev_puts =
            (if (mlx5e_restore_tunnel env { skb with mark := 0 } ⟨none⟩
                  tid).tc_priv.fwd_dev.isSome then 1 else 0)) := by
  have hcond : ¬ (reg_c0 = 0 ∨ reg_c0 = env.default_flow_tag) := not_or.mpr ⟨h0, hd⟩
  refine ⟨?_, ?_, ?_⟩
  · simp [mlx5e_rep_tc_receive, hcond, mlx5e_rep_tc_receive_decode, hobj,
      mlx5e_restore_skb_sample]
  · intro hfail
    constructor <;>
      simp [mlx5e_rep_tc_receive, hcond, mlx5e_rep_tc_receive_decode, hobj,
        mlx5e_restore_skb_sample, hfail]
  · intro hok
    constructor <;>
      simp [mlx5e_rep_tc_receive, hcond, mlx5e_rep_tc_receive_decode, hobj,
        mlx5e_restore_skb_sample, hok, mlx5_rep_tc_post_napi_receive]

/-- Witness for C5 (amended): tag0 = 6 in `sampleRxEnv` decodes to a
Sample with restorable tunnel id 4 (forward device 30 recorded): the
collector is invoked, exactly one device release happens, and the
packet is freed rather than forwarded. -/
theorem sample_receive_spec_witness :
    ((6 : Nat) ≠ 0 ∧ (6 : Nat) ≠ sampleRxEnv.default_flow_tag ∧
        sampleRxEnv.reg_c0_obj 6 = some (.sample 4) ∧
        (mlx5e_restore_tunnel sampleRxEnv ⟨5, 0, none, none⟩ ⟨none⟩ 4).ok = true) ∧
      (mlx5e_rep_tc_receive sampleRxEnv 6 0 ⟨5, 3, none, none⟩).disp =
        Disposition.freed ∧
      (mlx5e_rep_tc_receive sampleRxEnv 6 0 ⟨5, 3, none, none⟩).sampled = true ∧
      (mlx5e_rep_tc_receive sampleRxEnv 6 0 ⟨5, 3, none, none⟩).dev_puts = 1 := by
  have h := sample_receive_spec sampleRxEnv 6 0 ⟨5, 3, none, none⟩ 4
    (by decide) (by decide) (by decide)
  have hc := h.2.2 (by decide)
  refine ⟨⟨by decide, by decide, by decide, by decide⟩, h.1, hc.1, ?_⟩
  rw [hc.2]
  decide

/-- `mlx5e_restore_tunnel` never touches the tc skb extension: the
restored packet's recorded chain is whatever it was on entry. -/
theorem restore_tunnel_ext_chain (env : ReceiveEnv) (skb : Skb)
    (tc_priv : TcUpdatePriv) (tid : Nat) :
    (mlx5e_restore_tunnel env skb tc_priv tid).skb.ext_chain = skb.ext_chain := by
  by_cases h : tid / 2 ^ env.enc_opts_bits = 0
  · simp [mlx5e_restore_tunnel, h]
  · cases hmap : env.tunnel_mapping (tid / 2 ^ env.enc_opts_bits) with
    | none => simp [mlx5e_restore_tunnel, h, hmap]
    | some key =>
      cases hopts : (if tid % 2 ^ env.enc_opts_bits ≠ 0 then
          env.tunnel_enc_opts_mapping (tid % 2 ^ env.enc_opts_bits)
        else some ⟨0, [], 0⟩) with
      | none => simp [mlx5e_restore_tunnel, h, hmap, hopts]
      | some eo =>
        cases haddr : key.addr_type with
        | ipv4 =>
          cases hdev : env.dev_get_by_index key.filter_ifindex with
          | none =>
            simp [mlx5e_restore_tunnel, mlx5e_restore_tunnel_finish, h, hmap,
              hopts, haddr, hdev]
            split <;> rfl
          | some d =>
            simp [mlx5e_restore_tunnel, mlx5e_restore_tunnel_finish, h, hmap,
              hopts, haddr, hdev]
            split <;> rfl
        | ipv6 =>
          cases hdev : env.dev_get_by_index key.filter_ifindex with
          | none =>
            simp [mlx5e_restore_tunnel, mlx5e_restore_tunnel_finish, h, hmap,
              hopts, haddr, hdev]
            split <;> rfl
          | some d =>
            simp [mlx5e_restore_tunnel, mlx5e_restore_tunnel_finish, h, hmap,
              hopts, haddr, hdev]
            split <;> rfl
        | other => simp [mlx5e_restore_tunnel, h, hmap, hopts, haddr]

/-- A receive environment where the ipsec receive path claims the
packet: as `sampleRxEnv` but with `mlx5_ipsec_is_rx_flow` true and
tag0 = 5 decoding to Chain 4. -/
def chainRxEnv : ReceiveEnv :=
  { sampleRxEnv with
    ipsec_rx := true
    reg_c0_obj := fun n => if n = 5 then some (.chain 4) else none }

/-- Counterexample for C9 as stated: in `chainRxEnv`, tag0 = 5 decodes
to Chain 4 (nonzero), the connection-tracking restore succeeds (zone
0), the subsequent tunnel restore fails (tunnel id 12, base id 3 maps
to nothing) — yet the packet is not dropped: the ipsec receive path
claims it and it is delivered, contradicting "failure of the subsequent
tunnel restore drops the packet". -/
theorem chain_tunnel_fail_ipsec_cex :
    chainRxEnv.reg_c0_obj 5 = some (.chain 4) ∧
      chainRxEnv.ct_restore_ok (192 % 2 ^ chainRxEnv.zone_bits) = true ∧
      (mlx5e_restore_tunnel chainRxEnv ⟨5, 0, none, some 4⟩ ⟨none⟩ 12).ok = false ∧
      chainRxEnv.ipsec_rx = true ∧
      (mlx5e_rep_tc_receive chainRxEnv 5 192 ⟨5, 3, none, none⟩).disp =
        Disposition.deliver := by
  decide

/-- C9 (amended): for a packet decoding to the Chain variant with a
nonzero chain (and the tc extension allocation succeeding):
connection-tracking restore metadata is allocated on the packet (the
chain is recorded) and the connection-tracking restorer is invoked with
the zone-restore id from `reg_c1`; failure of that step drops the
packet unless the ipsec receive path claims it (then it is delivered);
failure of the subsequent tunnel restore likewise drops the packet
unless the ipsec receive path claims it. -/
theorem chain_receive_spec (env : ReceiveEnv) (reg_c0 reg_c1 : Nat)
    (skb : Skb) (c : Nat)
    (h0 : reg_c0 ≠ 0) (hd : reg_c0 ≠ env.default_flow_tag)
    (hobj : env.reg_c0_obj reg_c0 = some (.chain c)) (hc : c ≠ 0)
    (halloc : env.skb_ext_alloc_ok = true) :
    ((mlx5e_rep_tc_receive env reg_c0 reg_c1 skb).ct_zone =
        some (reg_c1 % 2 ^ env.zone_bits) ∧
      (mlx5e_rep_tc_receive env reg_c0 reg_c1 skb).skb.ext_chain = some c) ∧
      (env.ct_restore_ok (reg_c1 % 2 ^ env.zone_bits) = false →
        (env.ipsec_rx = false →
          (mlx5e_rep_tc_receive env reg_c0 reg_c1 skb).disp = Disposition.freed) ∧
        (env.ipsec_rx = true →
          (mlx5e_rep_tc_receive env reg_c0 reg_c1 skb).disp = Disposition.deliver)) ∧
      (env.ct_restore_ok (reg_c1 % 2 ^ env.zone_bits) = true →
        (mlx5e_restore_tunnel env { skb with mark := 0, ext_chain := some c } ⟨none⟩
            ((reg_c1 / 2 ^ env.tun_offset) % 2 ^ env.tunnel_id_bits)).ok = false →
        (env.ipsec_rx = false →
          (mlx5e_rep_tc_receive env reg_c0 reg_c1 skb).disp = Disposition.freed) ∧
        (env.ipsec_rx = true →
          (mlx5e_rep_tc_receive env reg_c0 reg_c1 skb).disp = Disposition.deliver)) := by
  have hcond : ¬ (reg_c0 = 0 ∨ reg_c0 = env.default_flow_tag) := not_or.mpr ⟨h0, hd⟩
  by_cases hct : env.ct_restore_ok (reg_c1 % 2 ^ env.zone_bits)
  · refine ⟨⟨?_, ?_⟩, fun hctf => absurd hct (by simp [hctf]), fun _ hfail => ⟨?_, ?_⟩⟩
    · by_cases hip : env.ipsec_rx <;>
        by_cases hok : (mlx5e_restore_tunnel env
            { skb with mark := 0, ext_chain := some c } ⟨none⟩
            ((reg_c1 / 2 ^ env.tun_offset) % 2 ^ env.tunnel_id_bits)).ok <;>
          simp [mlx5e_rep_tc_receive, hcond, mlx5e_rep_tc_receive_decode, hobj,
            mlx5e_restore_skb_chain, hc, halloc, hct, hip, hok]
    · by_cases hip : env.ipsec_rx <;>
        by_cases hok : (mlx5e_restore_tunnel env
            { skb with mark := 0, ext_chain := some c } ⟨none⟩
            ((reg_c1 / 2 ^ env.tun_offset) % 2 ^ env.tunnel_id_bits)).ok <;>
          simp [mlx5e_rep_tc_receive, hcond, mlx5e_rep_tc_receive_decode, hobj,
            mlx5e_restore_skb_chain, hc, halloc, hct, hip, hok,
            restore_tunnel_ext_chain]
    · intro hip
      simp [mlx5e_rep_tc_receive, hcond, mlx5e_rep_tc_receive_decode, hobj,
        mlx5e_restore_skb_chain, hc, halloc, hct, hip, hfail]
    · intro hip
      simp [mlx5e_rep_tc_receive, hcond, mlx5e_rep_tc_receive_decode, hobj,
        mlx5e_restore_skb_chain, hc, halloc, hct, hip, hfail]
  · refine ⟨⟨?_, ?_⟩, fun _ => ⟨?_, ?_⟩, fun hctt => absurd hctt (by simpa using hct)⟩
    · simp [mlx5e_rep_tc_receive, hcond, mlx5e_rep_tc_receive_decode, hobj,
        mlx5e_restore_skb_chain, hc, halloc, hct]
      by_cases hip : env.ipsec_rx <;> simp [hip]
    · simp [mlx5e_rep_tc_receive, hcond, mlx5e_rep_tc_receive_decode, hobj,
        mlx5e_restore_skb_chain, hc, halloc, hct]
      by_cases hip : env.ipsec_rx <;> simp [hip]
    · intro hip
      simp [mlx5e_rep_tc_receive, hcond, mlx5e_rep_tc_receive_decode, hobj,
        mlx5e_restore_skb_chain, hc, halloc, hct, hip]
    · intro hip
      simp [mlx5e_rep_tc_receive, hcond, mlx5e_rep_tc_receive_decode, hobj,
        mlx5e_restore_skb_chain, hc, halloc, hct, hip]

/-- Witness for C9 (amended) in `chainRxEnv`: tag0 = 5, `reg_c1` = 192
(zone 0, tunnel id 12): ct metadata recorded and restorer invoked with
zone 0; ct succeeded, tunnel restore failed, ipsec claims the packet —
delivered. -/
theorem chain_receive_spec_witness :
    ((5 : Nat) ≠ 0 ∧ (5 : Nat) ≠ chainRxEnv.default_flow_tag ∧
        chainRxEnv.reg_c0_obj 5 = some (.chain 4) ∧ (4 : Nat) ≠ 0 ∧
        chainRxEnv.skb_ext_alloc_ok = true) ∧
      (mlx5e_rep_tc_receive chainRxEnv 5 192 ⟨5, 3, none, none⟩).ct_zone =
        some (192 % 2 ^ chainRxEnv.zone_bits) ∧
      (mlx5e_rep_tc_receive chainRxEnv 5 192 ⟨5, 3, none, none⟩).skb.ext_chain =
        some 4 ∧
      (mlx5e_rep_tc_receive chainRxEnv 5 192 ⟨5, 3, none, none⟩).disp =
        Disposition.deliver := by
  have h := chain_receive_spec chainRxEnv 5 192 ⟨5, 3, none, none⟩ 4
    (by decide) (by decide) (by decide) (by decide) (by decide)
  exact ⟨⟨by decide, by decide, by decide, by decide, by decide⟩, h.1.1, h.1.2,
    (h.2.2 (by decide) (by decide)).2 (by decide)⟩

/-- C7: an action-only Replace whose action set has more than one entry
is rejected with `-EOPNOTSUPP`, for every environment — i.e. before and
regardless of any handler lookup; with exactly one action, Replace
returns 0 if and only if the action-binding registry holds a handler
for the action in the applicable namespace (switch-offload namespace
when the eswitch is in offload mode, else the kernel namespace) whose
offload step reports success. -/
theorem replace_act_spec :
    (∀ (env : ActEnv) (actions : List Nat), 1 < actions.length →
      mlx5e_rep_indr_replace_act env actions = -EOPNOTSUPP) ∧
    (∀ (env : ActEnv) (a : Nat),
      mlx5e_rep_indr_replace_act env [a] = 0 ↔
        ∃ act off,
          env.tc_act_get a
              (if env.esw_present ∧ env.esw_mode_offloads then NsType.fdb
               else NsType.kernel) = some act ∧
            act.offload_action = some off ∧ off a = 0) := by
  constructor
  · intro env actions h
    have hne : actions.length ≠ 1 := by omega
    simp [mlx5e_rep_indr_replace_act, flow_offload_has_one_action, hne]
  · intro env a
    cases hga : env.tc_act_get a
        (if env.esw_present ∧ env.esw_mode_offloads then NsType.fdb
         else NsType.kernel) with
    | none =>
      simp [mlx5e_rep_indr_replace_act, flow_offload_has_one_action, hga,
        EOPNOTSUPP]
    | some act =>
      cases hoa : act.offload_action with
      | none =>
        simp [mlx5e_rep_indr_replace_act, flow_offload_has_one_action, hga, hoa,
          EOPNOTSUPP]
      | some off =>
        by_cases hz : off a = 0
        · simp [mlx5e_rep_indr_replace_act, flow_offload_has_one_action, hga,
            hoa, hz]
        · simp [mlx5e_rep_indr_replace_act, flow_offload_has_one_action, hga,
            hoa, hz, EOPNOTSUPP]

/-- Witness for C7: with a registry holding a succeeding handler for
action 3 in the FDB namespace, the two-action set `[3, 3]` is still
rejected, while the singleton `[3]` satisfies the success
equivalence. -/
theorem replace_act_spec_witness :
    1 < ([3, 3] : List Nat).length ∧
      mlx5e_rep_indr_replace_act
        ⟨true, true, fun a ns =>
          if a = 3 ∧ ns = NsType.fdb then some ⟨some fun _ => 0, none, none⟩
          else none⟩ [3, 3] = -EOPNOTSUPP ∧
      (mlx5e_rep_indr_replace_act
          ⟨true, true, fun a ns =>
            if a = 3 ∧ ns = NsType.fdb then some ⟨some fun _ => 0, none, none⟩
            else none⟩ [3] = 0 ↔
        ∃ act off,
          (⟨true, true, fun a ns =>
            if a = 3 ∧ ns = NsType.fdb then some ⟨some fun _ => 0, none, none⟩
            else none⟩ : ActEnv).tc_act_get 3
              (if (true : Bool) ∧ (true : Bool) then NsType.fdb
               else NsType.kernel) = some act ∧
            act.offload_action = some off ∧ off 3 = 0) :=
  ⟨by decide,
    replace_act_spec.1
      ⟨true, true, fun a ns =>
        if a = 3 ∧ ns = NsType.fdb then some ⟨some fun _ => 0, none, none⟩
        else none⟩ [3, 3] (by decide),
    replace_act_spec.2
      ⟨true, true, fun a ns =>
        if a = 3 ∧ ns = NsType.fdb then some ⟨some fun _ => 0, none, none⟩
        else none⟩ 3⟩

end RepTc
